import Mathlib

/-
Verification of the bouncing-logo motion integrator of the sportmagia
repository.  The kinematics is embedded shallowly over the rationals:
positions, velocities and bounds are exact numbers, and every branch of
the JavaScript source is reproduced as the corresponding conditional.
-/

/-- Edge and corner identifiers emitted by a motion step. -/
inductive Event where
  | left
  | right
  | top
  | bottom
  | corner
deriving DecidableEq, Repr

/-- Bounding region for the centre of the sprite, as computed in
src/index.js lines 413-416 (leftBound, rightBound, topBound, bottomBound). -/
structure Bounds where
  leftBound : ℚ
  rightBound : ℚ
  topBound : ℚ
  bottomBound : ℚ
deriving DecidableEq, Repr

/-- Motion state of the sprite: centre position and velocity components,
as held by the animation loops of src/index.js and src/unnamed/part_000. -/
@[ext]
structure MotionState where
  x : ℚ
  y : ℚ
  velocityX : ℚ
  velocityY : ℚ
deriving DecidableEq, Repr

/-- Candidate next x before any clamping, src/index.js line 419:
newX = logo.x + velocityX * deltaTime. -/
def candidateX (s : MotionState) (dt : ℚ) : ℚ :=
  s.x + s.velocityX * dt

/-- Candidate next y before any clamping, src/index.js line 420:
newY = logo.y + velocityY * deltaTime. -/
def candidateY (s : MotionState) (dt : ℚ) : ℚ :=
  s.y + s.velocityY * dt

/-- Clamped position on one axis, following the branch structure of
src/index.js lines 431-439 (and 442-450 for the vertical axis): snap to
the low bound when the candidate is at or below it, otherwise to the
high bound when at or above it, otherwise keep the candidate. -/
def axisPos (cand low high : ℚ) : ℚ :=
  if cand ≤ low then low
  else if cand ≥ high then high
  else cand

/-- Velocity update on one axis, src/index.js lines 433 and 437: bounce
away from the low bound with Math.abs, away from the high bound with
negated Math.abs, otherwise keep the velocity. -/
def axisVel (cand low high vel : ℚ) : ℚ :=
  if cand ≤ low then |vel|
  else if cand ≥ high then -|vel|
  else vel

/-- Hit tracking on one axis, src/index.js lines 434 and 438: a bound is
counted as hit only when the previous velocity was moving toward it. -/
def axisHit (cand low high vel : ℚ) : Bool :=
  if cand ≤ low then decide (vel < 0)
  else if cand ≥ high then decide (vel > 0)
  else false

/-- Result of one motion step: the candidate (pre-clamp) position, the
updated state, the per-axis hit flags and the emitted events. -/
structure StepResult where
  candX : ℚ
  candY : ℚ
  state : MotionState
  hitHorizontal : Bool
  hitVertical : Bool
  events : List Event
deriving DecidableEq, Repr

/-- One motion-integration step of the frame callback animateLogo in
src/index.js lines 403-469: compute the candidate position from the
elapsed time dt, clamp and bounce on each axis independently, track
which edges were hit against the previous velocity direction, and
detect a corner when both axes hit in the same frame and the glow
effect is not already active (line 453). -/
def animateLogoStep (s : MotionState) (b : Bounds) (dt : ℚ) (isGlowing : Bool) :
    StepResult :=
  { candX := candidateX s dt
    candY := candidateY s dt
    state :=
      { x := axisPos (candidateX s dt) b.leftBound b.rightBound
        y := axisPos (candidateY s dt) b.topBound b.bottomBound
        velocityX := axisVel (candidateX s dt) b.leftBound b.rightBound s.velocityX
        velocityY := axisVel (candidateY s dt) b.topBound b.bottomBound s.velocityY }
    hitHorizontal := axisHit (candidateX s dt) b.leftBound b.rightBound s.velocityX
    hitVertical := axisHit (candidateY s dt) b.topBound b.bottomBound s.velocityY
    events :=
      (if axisHit (candidateX s dt) b.leftBound b.rightBound s.velocityX then
        (if candidateX s dt ≤ b.leftBound then [Event.left] else [Event.right])
      else []) ++
      (if axisHit (candidateY s dt) b.topBound b.bottomBound s.velocityY then
        (if candidateY s dt ≤ b.topBound then [Event.top] else [Event.bottom])
      else []) ++
      (if axisHit (candidateX s dt) b.leftBound b.rightBound s.velocityX &&
          axisHit (candidateY s dt) b.topBound b.bottomBound s.velocityY &&
          !isGlowing then
        [Event.corner]
      else []) }

/-- The clamped position on one axis lies between the bounds whenever the
bounds are ordered. -/
theorem axisPos_bounds (cand low high : ℚ) (h : low ≤ high) :
    low ≤ axisPos cand low high ∧ axisPos cand low high ≤ high := by
  unfold axisPos
  split_ifs with h1 h2
  · exact ⟨le_refl low, h⟩
  · exact ⟨h, le_refl high⟩
  · exact ⟨le_of_lt (lt_of_not_le h1), le_of_lt (lt_of_not_le h2)⟩

/-- C1: for every bounding region with ordered bounds, every starting
state whose position lies within the region, and every dt ≥ 0, the
position returned by the step lies within the region, however far the
candidate position overshoots. -/
theorem c1_step_stays_in_bounds (s : MotionState) (b : Bounds) (dt : ℚ)
    (g : Bool)
    (hlr : b.leftBound ≤ b.rightBound) (htb : b.topBound ≤ b.bottomBound)
    (hx1 : b.leftBound ≤ s.x) (hx2 : s.x ≤ b.rightBound)
    (hy1 : b.topBound ≤ s.y) (hy2 : s.y ≤ b.bottomBound)
    (hdt : 0 ≤ dt) :
    b.leftBound ≤ (animateLogoStep s b dt g).state.x ∧
    (animateLogoStep s b dt g).state.x ≤ b.rightBound ∧
    b.topBound ≤ (animateLogoStep s b dt g).state.y ∧
    (animateLogoStep s b dt g).state.y ≤ b.bottomBound := by
  obtain ⟨p1, p2⟩ := axisPos_bounds (candidateX s dt) b.leftBound b.rightBound hlr
  obtain ⟨q1, q2⟩ := axisPos_bounds (candidateY s dt) b.topBound b.bottomBound htb
  exact ⟨p1, p2, q1, q2⟩

/-- Witness for c1_step_stays_in_bounds at a state overshooting the right
and bottom bounds by a large margin after a long dt. -/
theorem c1_witness :
    (0 : ℚ) ≤ (animateLogoStep ⟨50, 50, 10, 10⟩ ⟨0, 100, 0, 100⟩ 1000 false).state.x ∧
    (animateLogoStep ⟨50, 50, 10, 10⟩ ⟨0, 100, 0, 100⟩ 1000 false).state.x ≤ 100 ∧
    (0 : ℚ) ≤ (animateLogoStep ⟨50, 50, 10, 10⟩ ⟨0, 100, 0, 100⟩ 1000 false).state.y ∧
    (animateLogoStep ⟨50, 50, 10, 10⟩ ⟨0, 100, 0, 100⟩ 1000 false).state.y ≤ 100 :=
  c1_step_stays_in_bounds ⟨50, 50, 10, 10⟩ ⟨0, 100, 0, 100⟩ 1000 false
    (by decide) (by decide) (by decide) (by decide) (by decide) (by decide)
    (by decide)

/-- C9: the candidate next position computed by the step before any
clamping equals position plus velocity times dt, componentwise. -/
theorem c9_candidate_position (s : MotionState) (b : Bounds) (dt : ℚ)
    (g : Bool) :
    (animateLogoStep s b dt g).candX = s.x + s.velocityX * dt ∧
    (animateLogoStep s b dt g).candY = s.y + s.velocityY * dt :=
  ⟨rfl, rfl⟩

/-- A velocity carrying an in-bounds position strictly below the low bound
within nonnegative time must be negative. -/
theorem vel_neg_of_undershoot (x low vel dt : ℚ) (h1 : x + vel * dt < low)
    (h2 : low ≤ x) (h3 : 0 ≤ dt) : vel < 0 := by
  by_contra h
  push_neg at h
  have := mul_nonneg h h3
  linarith

/-- A velocity carrying an in-bounds position strictly above the high bound
within nonnegative time must be positive. -/
theorem vel_pos_of_overshoot (x high vel dt : ℚ) (h1 : high < x + vel * dt)
    (h2 : x ≤ high) (h3 : 0 ≤ dt) : 0 < vel := by
  by_contra h
  push_neg at h
  have := mul_nonpos_of_nonpos_of_nonneg h h3
  linarith

/-- C2: whenever the candidate position strictly exceeds an upper or lower
bound of an axis, the post-step velocity component on that axis is the
exact negation (opposite sign, equal magnitude) of the pre-step one. -/
theorem c2_reflection_law (s : MotionState) (b : Bounds) (dt : ℚ) (g : Bool)
    (hlr : b.leftBound ≤ b.rightBound)
    (hx1 : b.leftBound ≤ s.x) (hx2 : s.x ≤ b.rightBound)
    (hy1 : b.topBound ≤ s.y) (hy2 : s.y ≤ b.bottomBound)
    (hdt : 0 ≤ dt) :
    (candidateX s dt < b.leftBound ∨ b.rightBound < candidateX s dt →
      (animateLogoStep s b dt g).state.velocityX = -s.velocityX) ∧
    (candidateY s dt < b.topBound ∨ b.bottomBound < candidateY s dt →
      (animateLogoStep s b dt g).state.velocityY = -s.velocityY) := by
  constructor
  · intro hc
    show axisVel (candidateX s dt) b.leftBound b.rightBound s.velocityX =
      -s.velocityX
    rcases hc with hlow | hhigh
    · rw [axisVel, if_pos (le_of_lt hlow)]
      exact abs_of_neg (vel_neg_of_undershoot s.x b.leftBound s.velocityX dt
        hlow hx1 hdt)
    · have hnot : ¬ candidateX s dt ≤ b.leftBound := by
        push_neg
        exact lt_of_le_of_lt hlr hhigh
      rw [axisVel, if_neg hnot, if_pos (le_of_lt hhigh)]
      rw [abs_of_pos (vel_pos_of_overshoot s.x b.rightBound s.velocityX dt
        hhigh hx2 hdt)]
  · intro hc
    show axisVel (candidateY s dt) b.topBound b.bottomBound s.velocityY =
      -s.velocityY
    rcases hc with hlow | hhigh
    · rw [axisVel, if_pos (le_of_lt hlow)]
      exact abs_of_neg (vel_neg_of_undershoot s.y b.topBound s.velocityY dt
        hlow hy1 hdt)
    · have htb : b.topBound ≤ b.bottomBound := le_trans hy1 hy2
      have hnot : ¬ candidateY s dt ≤ b.topBound := by
        push_neg
        exact lt_of_le_of_lt htb hhigh
      rw [axisVel, if_neg hnot, if_pos (le_of_lt hhigh)]
      rw [abs_of_pos (vel_pos_of_overshoot s.y b.bottomBound s.velocityY dt
        hhigh hy2 hdt)]

/-- Witness for c2_reflection_law: overshooting the right bound from
position 95 with velocity +10 flips the x velocity to -10. -/
theorem c2_witness :
    (animateLogoStep ⟨95, 50, 10, 0⟩ ⟨0, 100, 0, 100⟩ 1 false).state.velocityX =
      -(10 : ℚ) :=
  (c2_reflection_law ⟨95, 50, 10, 0⟩ ⟨0, 100, 0, 100⟩ 1 false
    (by decide) (by decide) (by decide) (by decide) (by decide) (by decide)).1
    (Or.inr (by norm_num [candidateX]))

/-- C5: from position (95, 50) with velocity (+10, 0), bounds 0 to 100 on
both axes and dt = 1, the step produces candidate x = 105, clamps the
position to (100, 50), sets the velocity to (-10, 0) and emits exactly
the right-edge event. -/
theorem c5_right_edge_example :
    (animateLogoStep ⟨95, 50, 10, 0⟩ ⟨0, 100, 0, 100⟩ 1 false).candX = 105 ∧
    (animateLogoStep ⟨95, 50, 10, 0⟩ ⟨0, 100, 0, 100⟩ 1 false).state =
      ⟨100, 50, -10, 0⟩ ∧
    (animateLogoStep ⟨95, 50, 10, 0⟩ ⟨0, 100, 0, 100⟩ 1 false).events =
      [Event.right] := by
  norm_num [animateLogoStep, candidateX, candidateY, axisPos, axisVel, axisHit]

/-- C8: the step is a total function of its arguments (hence deterministic
and effect-free in this embedding), and for every well-formed bounding
region, every input state and every dt it returns a state whose position
is valid, that is, inside the region. -/
theorem c8_step_total_valid (s : MotionState) (b : Bounds) (dt : ℚ)
    (g : Bool)
    (hlr : b.leftBound ≤ b.rightBound) (htb : b.topBound ≤ b.bottomBound) :
    b.leftBound ≤ (animateLogoStep s b dt g).state.x ∧
    (animateLogoStep s b dt g).state.x ≤ b.rightBound ∧
    b.topBound ≤ (animateLogoStep s b dt g).state.y ∧
    (animateLogoStep s b dt g).state.y ≤ b.bottomBound := by
  obtain ⟨p1, p2⟩ := axisPos_bounds (candidateX s dt) b.leftBound b.rightBound hlr
  obtain ⟨q1, q2⟩ := axisPos_bounds (candidateY s dt) b.topBound b.bottomBound htb
  exact ⟨p1, p2, q1, q2⟩

/-- Witness for c8_step_total_valid at an out-of-bounds start and a
negative dt: the returned position is still valid. -/
theorem c8_witness :
    (0 : ℚ) ≤ (animateLogoStep ⟨250, -40, 7, -3⟩ ⟨0, 100, 0, 100⟩ (-2) true).state.x ∧
    (animateLogoStep ⟨250, -40, 7, -3⟩ ⟨0, 100, 0, 100⟩ (-2) true).state.x ≤ 100 ∧
    (0 : ℚ) ≤ (animateLogoStep ⟨250, -40, 7, -3⟩ ⟨0, 100, 0, 100⟩ (-2) true).state.y ∧
    (animateLogoStep ⟨250, -40, 7, -3⟩ ⟨0, 100, 0, 100⟩ (-2) true).state.y ≤ 100 :=
  c8_step_total_valid ⟨250, -40, 7, -3⟩ ⟨0, 100, 0, 100⟩ (-2) true
    (by decide) (by decide)

/-- C4 fails as stated: at dt = 0, a state resting exactly on the left
bound with outward (negative) x velocity has that velocity flipped to
positive and the left-edge event emitted, so the state is changed and
the event set is not empty. -/
theorem c4_dt_zero_counterexample :
    (animateLogoStep ⟨0, 50, -10, 0⟩ ⟨0, 100, 0, 100⟩ 0 false).state.velocityX ≠
      (-10 : ℚ) ∧
    (animateLogoStep ⟨0, 50, -10, 0⟩ ⟨0, 100, 0, 100⟩ 0 false).events ≠ [] := by
  norm_num [animateLogoStep, candidateX, candidateY, axisPos, axisVel, axisHit]

/-- C4 amended: calling the step with dt = 0 from a state strictly inside
the bounding region returns the state unchanged and an empty event set;
a state resting exactly on a bound may instead have its outward velocity
component redirected away from that bound, with the edge event emitted. -/
theorem c4_dt_zero_idempotent_inside (s : MotionState) (b : Bounds) (g : Bool)
    (hx1 : b.leftBound < s.x) (hx2 : s.x < b.rightBound)
    (hy1 : b.topBound < s.y) (hy2 : s.y < b.bottomBound) :
    (animateLogoStep s b 0 g).state = s ∧
    (animateLogoStep s b 0 g).events = [] := by
  have hcx : candidateX s 0 = s.x := by
    unfold candidateX
    ring
  have hcy : candidateY s 0 = s.y := by
    unfold candidateY
    ring
  have hnx1 : ¬ candidateX s 0 ≤ b.leftBound := by
    rw [hcx]
    exact not_le_of_lt hx1
  have hnx2 : ¬ candidateX s 0 ≥ b.rightBound := by
    rw [hcx]
    exact not_le_of_lt hx2
  have hny1 : ¬ candidateY s 0 ≤ b.topBound := by
    rw [hcy]
    exact not_le_of_lt hy1
  have hny2 : ¬ candidateY s 0 ≥ b.bottomBound := by
    rw [hcy]
    exact not_le_of_lt hy2
  have hhx : axisHit (candidateX s 0) b.leftBound b.rightBound s.velocityX = false := by
    rw [axisHit, if_neg hnx1, if_neg hnx2]
  have hhy : axisHit (candidateY s 0) b.topBound b.bottomBound s.velocityY = false := by
    rw [axisHit, if_neg hny1, if_neg hny2]
  constructor
  · apply MotionState.ext
    · show axisPos (candidateX s 0) b.leftBound b.rightBound = s.x
      rw [axisPos, if_neg hnx1, if_neg hnx2, hcx]
    · show axisPos (candidateY s 0) b.topBound b.bottomBound = s.y
      rw [axisPos, if_neg hny1, if_neg hny2, hcy]
    · show axisVel (candidateX s 0) b.leftBound b.rightBound s.velocityX = s.velocityX
      rw [axisVel, if_neg hnx1, if_neg hnx2]
    · show axisVel (candidateY s 0) b.topBound b.bottomBound s.velocityY = s.velocityY
      rw [axisVel, if_neg hny1, if_neg hny2]
  · show (if axisHit (candidateX s 0) b.leftBound b.rightBound s.velocityX then
        (if candidateX s 0 ≤ b.leftBound then [Event.left] else [Event.right])
      else []) ++ _ ++ _ = []
    rw [hhx, hhy]
    simp

/-- Witness for c4_dt_zero_idempotent_inside at a strictly interior state. -/
theorem c4_witness :
    (animateLogoStep ⟨40, 60, -10, 5⟩ ⟨0, 100, 0, 100⟩ 0 true).state =
      (⟨40, 60, -10, 5⟩ : MotionState) ∧
    (animateLogoStep ⟨40, 60, -10, 5⟩ ⟨0, 100, 0, 100⟩ 0 true).events = [] :=
  c4_dt_zero_idempotent_inside ⟨40, 60, -10, 5⟩ ⟨0, 100, 0, 100⟩ true
    (by decide) (by decide) (by decide) (by decide)

/-- Candidate next x of calculateNextPosition in src/unnamed/part_000
line 219: the timer-driven variant advances by a fixed 1/60 second, so
the candidate is the position plus one sixtieth of the velocity. -/
def nextX0 (s : MotionState) : ℚ :=
  s.x + s.velocityX / 60

/-- Candidate next y of calculateNextPosition, src/unnamed/part_000
line 220. -/
def nextY0 (s : MotionState) : ℚ :=
  s.y + s.velocityY / 60

/-- Hit flag of the left bound, src/unnamed/part_000 line 224. -/
def hitLeftB (s : MotionState) (b : Bounds) : Bool :=
  decide (nextX0 s ≤ b.leftBound)

/-- Hit flag of the right bound, src/unnamed/part_000 line 225. -/
def hitRightB (s : MotionState) (b : Bounds) : Bool :=
  decide (nextX0 s ≥ b.rightBound)

/-- Hit flag of the top bound, src/unnamed/part_000 line 226. -/
def hitTopB (s : MotionState) (b : Bounds) : Bool :=
  decide (nextY0 s ≤ b.topBound)

/-- Hit flag of the bottom bound, src/unnamed/part_000 line 227. -/
def hitBottomB (s : MotionState) (b : Bounds) : Bool :=
  decide (nextY0 s ≥ b.bottomBound)

/-- Result of one call of calculateNextPosition: the candidate position,
the updated state, the four edge flags, the corner flag and the emitted
events. -/
structure CalcResult where
  candX : ℚ
  candY : ℚ
  state : MotionState
  hitLeft : Bool
  hitRight : Bool
  hitTop : Bool
  hitBottom : Bool
  hitCorner : Bool
  events : List Event
deriving DecidableEq, Repr

/-- The kinematics of calculateNextPosition in src/unnamed/part_000
lines 219-273: fixed 1/60 second candidate, edge flags by comparison
with the bounds (lines 224-227), velocity negation and snapping to the
hit edge per axis (lines 229-237), corner detection when both axes hit
(line 239), and the defensive clamp of lines 272-273.  The events list
collects the edge identifiers reported by the collision log of lines
258-268 together with the corner signal. -/
def calculateNextPosition (s : MotionState) (b : Bounds) : CalcResult :=
  { candX := nextX0 s
    candY := nextY0 s
    state :=
      { x := max b.leftBound (min b.rightBound
          (if hitLeftB s b || hitRightB s b then
            (if hitLeftB s b then b.leftBound else b.rightBound)
          else nextX0 s))
        y := max b.topBound (min b.bottomBound
          (if hitTopB s b || hitBottomB s b then
            (if hitTopB s b then b.topBound else b.bottomBound)
          else nextY0 s))
        velocityX := if hitLeftB s b || hitRightB s b then -s.velocityX else s.velocityX
        velocityY := if hitTopB s b || hitBottomB s b then -s.velocityY else s.velocityY }
    hitLeft := hitLeftB s b
    hitRight := hitRightB s b
    hitTop := hitTopB s b
    hitBottom := hitBottomB s b
    hitCorner := (hitLeftB s b || hitRightB s b) && (hitTopB s b || hitBottomB s b)
    events :=
      (if hitLeftB s b then [Event.left] else []) ++
      (if hitRightB s b then [Event.right] else []) ++
      (if hitTopB s b then [Event.top] else []) ++
      (if hitBottomB s b then [Event.bottom] else []) ++
      (if (hitLeftB s b || hitRightB s b) && (hitTopB s b || hitBottomB s b) then
        [Event.corner]
      else []) }

/-- C3: the corner event is emitted exactly when the candidate position
reaches an edge on both axes in the same step, and in that case the
responsible edge identifiers accompany it in the event set. -/
theorem c3_corner_iff_both_axes (s : MotionState) (b : Bounds) :
    (Event.corner ∈ (calculateNextPosition s b).events ↔
      ((nextX0 s ≤ b.leftBound ∨ b.rightBound ≤ nextX0 s) ∧
       (nextY0 s ≤ b.topBound ∨ b.bottomBound ≤ nextY0 s))) ∧
    (nextX0 s ≤ b.leftBound → Event.left ∈ (calculateNextPosition s b).events) ∧
    (b.rightBound ≤ nextX0 s → Event.right ∈ (calculateNextPosition s b).events) ∧
    (nextY0 s ≤ b.topBound → Event.top ∈ (calculateNextPosition s b).events) ∧
    (b.bottomBound ≤ nextY0 s → Event.bottom ∈ (calculateNextPosition s b).events) := by
  by_cases h1 : nextX0 s ≤ b.leftBound <;>
  by_cases h2 : nextX0 s ≥ b.rightBound <;>
  by_cases h3 : nextY0 s ≤ b.topBound <;>
  by_cases h4 : nextY0 s ≥ b.bottomBound <;>
  simp [calculateNextPosition, hitLeftB, hitRightB, hitTopB, hitBottomB,
    h1, h2, h3, h4]

/-- Witness for c3_corner_iff_both_axes at the spec corner example scaled
to the fixed 1/60 second timestep: position (98, 98) with velocity
(600, 600) reaches (108, 108), clamping both axes, so the events hold
right, bottom and corner. -/
theorem c3_witness :
    Event.right ∈ (calculateNextPosition ⟨98, 98, 600, 600⟩ ⟨0, 100, 0, 100⟩).events ∧
    Event.bottom ∈ (calculateNextPosition ⟨98, 98, 600, 600⟩ ⟨0, 100, 0, 100⟩).events ∧
    Event.corner ∈ (calculateNextPosition ⟨98, 98, 600, 600⟩ ⟨0, 100, 0, 100⟩).events :=
  ⟨(c3_corner_iff_both_axes ⟨98, 98, 600, 600⟩ ⟨0, 100, 0, 100⟩).2.2.1
      (by norm_num [nextX0]),
   (c3_corner_iff_both_axes ⟨98, 98, 600, 600⟩ ⟨0, 100, 0, 100⟩).2.2.2.2
      (by norm_num [nextY0]),
   (c3_corner_iff_both_axes ⟨98, 98, 600, 600⟩ ⟨0, 100, 0, 100⟩).1.mpr
      ⟨Or.inr (by norm_num [nextX0]), Or.inr (by norm_num [nextY0])⟩⟩

/-- C7: when exactly one axis hits, the other axis keeps its velocity
unchanged, and both velocity components change in one step only when the
corner flag is set. -/
theorem c7_axis_independence (s : MotionState) (b : Bounds) :
    (((calculateNextPosition s b).hitLeft || (calculateNextPosition s b).hitRight) = true →
     ((calculateNextPosition s b).hitTop || (calculateNextPosition s b).hitBottom) = false →
     (calculateNextPosition s b).state.velocityY = s.velocityY) ∧
    (((calculateNextPosition s b).hitTop || (calculateNextPosition s b).hitBottom) = true →
     ((calculateNextPosition s b).hitLeft || (calculateNextPosition s b).hitRight) = false →
     (calculateNextPosition s b).state.velocityX = s.velocityX) ∧
    ((calculateNextPosition s b).state.velocityX ≠ s.velocityX →
     (calculateNextPosition s b).state.velocityY ≠ s.velocityY →
     (calculateNextPosition s b).hitCorner = true) := by
  by_cases h1 : nextX0 s ≤ b.leftBound <;>
  by_cases h2 : nextX0 s ≥ b.rightBound <;>
  by_cases h3 : nextY0 s ≤ b.topBound <;>
  by_cases h4 : nextY0 s ≥ b.bottomBound <;>
  simp [calculateNextPosition, hitLeftB, hitRightB, hitTopB, hitBottomB,
    h1, h2, h3, h4]

/-- Witness for c7_axis_independence: a step hitting only the right edge
keeps the vertical velocity unchanged. -/
theorem c7_witness :
    (calculateNextPosition ⟨95, 50, 600, 0⟩ ⟨0, 100, 0, 100⟩).state.velocityY =
      (0 : ℚ) :=
  (c7_axis_independence ⟨95, 50, 600, 0⟩ ⟨0, 100, 0, 100⟩).1
    (by norm_num [calculateNextPosition, hitLeftB, hitRightB, nextX0])
    (by norm_num [calculateNextPosition, hitTopB, hitBottomB, nextY0])

/-- Direction of motion, embedding an angle by its direction vector
(cos of the angle, sin of the angle).  The angle operations of the
frame-driven variant act on this vector by exact trigonometric
identities, and directions compare up to the sign pattern only, so
rational components suffice. -/
@[ext]
structure Dir where
  dx : ℚ
  dy : ℚ
deriving DecidableEq, Repr

/-- Effect on the direction vector of the horizontal reflection
angle := pi - angle of src/logo-animator.js line 299: cos is negated,
sin is kept. -/
def hflipAngle (d : Dir) : Dir :=
  ⟨-d.dx, d.dy⟩

/-- Effect on the direction vector of the vertical reflection
angle := -angle of src/logo-animator.js line 307: cos is kept, sin is
negated. -/
def vflipAngle (d : Dir) : Dir :=
  ⟨d.dx, -d.dy⟩

/-- Effect on the direction vector of the half-turn
angle := angle + pi of src/logo-animator.js lines 292, 303 and 311:
both components are negated.  The subsequent normalisation of the angle
into the interval from 0 to two pi (lines 316-317) leaves the direction
vector unchanged and is therefore omitted. -/
def rotPi (d : Dir) : Dir :=
  ⟨-d.dx, -d.dy⟩

/-- Which walls were hit this frame, as detected in
src/logo-animator.js lines 281-284. -/
structure Hits where
  hitLeft : Bool
  hitRight : Bool
  hitTop : Bool
  hitBottom : Bool
deriving DecidableEq, Repr

/-- The reflection logic of mainLoop in src/logo-animator.js lines
289-313, acting on the direction of motion: a corner hit reverses the
direction outright; a horizontal hit applies the pi-minus reflection
and then, if the new direction still points toward the hit wall, adds a
half-turn (the move-away correction of lines 300-304); a vertical hit
does the mirror-image of that (lines 305-313). -/
def mainLoopReflect (h : Hits) (d : Dir) : Dir :=
  if (h.hitLeft || h.hitRight) && (h.hitTop || h.hitBottom) then
    rotPi d
  else if h.hitLeft || h.hitRight then
    (if (h.hitLeft && decide ((hflipAngle d).dx < 0)) ||
        (h.hitRight && decide ((hflipAngle d).dx > 0)) then
      rotPi (hflipAngle d)
    else hflipAngle d)
  else if h.hitTop || h.hitBottom then
    (if (h.hitTop && decide ((vflipAngle d).dy < 0)) ||
        (h.hitBottom && decide ((vflipAngle d).dy > 0)) then
      rotPi (vflipAngle d)
    else vflipAngle d)
  else d

/-- The canonical velocity-sign-flip rule of the spec (section 4.1), as
implemented by calculateNextPosition in src/unnamed/part_000 lines
229-237: negate the component of each axis on which an edge was hit. -/
def canonicalReflect (h : Hits) (d : Dir) : Dir :=
  ⟨if h.hitLeft || h.hitRight then -d.dx else d.dx,
   if h.hitTop || h.hitBottom then -d.dy else d.dy⟩

/-- C6 fails as stated: on a single left-wall hit with the unit
pre-step direction (3/5, 4/5), the angle-arithmetic variant first takes
pi minus the angle, then its move-away correction fires and adds a
half-turn, producing the direction (3/5, -4/5), while the canonical
velocity-sign-flip rule produces (-3/5, 4/5). -/
theorem c6_angle_variant_counterexample :
    mainLoopReflect ⟨true, false, false, false⟩ ⟨3/5, 4/5⟩ ≠
      canonicalReflect ⟨true, false, false, false⟩ ⟨3/5, 4/5⟩ := by
  norm_num [mainLoopReflect, canonicalReflect, hflipAngle, rotPi, Dir.ext_iff]

/-- C6 amended: on corner hits the angle-arithmetic variant always agrees
with the canonical velocity-sign-flip rule; on a single-axis hit it
agrees exactly when the pre-step direction component on that axis does
not point away from the hit wall, and otherwise the move-away correction
flips both components and the two rules diverge. -/
theorem c6_angle_variant_agreement (d : Dir) :
    (∀ h : Hits, (h.hitLeft || h.hitRight) = true →
      (h.hitTop || h.hitBottom) = true →
      mainLoopReflect h d = canonicalReflect h d) ∧
    (mainLoopReflect ⟨true, false, false, false⟩ d =
      canonicalReflect ⟨true, false, false, false⟩ d ↔ d.dx ≤ 0) ∧
    (mainLoopReflect ⟨false, true, false, false⟩ d =
      canonicalReflect ⟨false, true, false, false⟩ d ↔ 0 ≤ d.dx) ∧
    (mainLoopReflect ⟨false, false, true, false⟩ d =
      canonicalReflect ⟨false, false, true, false⟩ d ↔ d.dy ≤ 0) ∧
    (mainLoopReflect ⟨false, false, false, true⟩ d =
      canonicalReflect ⟨false, false, false, true⟩ d ↔ 0 ≤ d.dy) := by
  refine ⟨?_, ?_, ?_, ?_, ?_⟩
  · intro h h1 h2
    simp [mainLoopReflect, canonicalReflect, rotPi, h1, h2]
  · by_cases hx : (0 : ℚ) < d.dx
    · simp [mainLoopReflect, canonicalReflect, hflipAngle, rotPi, Dir.ext_iff, hx]
      constructor <;> intro hc <;> linarith
    · simp [mainLoopReflect, canonicalReflect, hflipAngle, rotPi, Dir.ext_iff, hx]
      all_goals linarith [le_of_not_lt hx]
  · by_cases hx : d.dx < 0
    · simp [mainLoopReflect, canonicalReflect, hflipAngle, rotPi, Dir.ext_iff, hx]
      constructor <;> intro hc <;> linarith
    · simp [mainLoopReflect, canonicalReflect, hflipAngle, rotPi, Dir.ext_iff, hx]
      all_goals linarith [le_of_not_lt hx]
  · by_cases hy : (0 : ℚ) < d.dy
    · simp [mainLoopReflect, canonicalReflect, vflipAngle, rotPi, Dir.ext_iff, hy]
      constructor <;> intro hc <;> linarith
    · simp [mainLoopReflect, canonicalReflect, vflipAngle, rotPi, Dir.ext_iff, hy]
      all_goals linarith [le_of_not_lt hy]
  · by_cases hy : d.dy < 0
    · simp [mainLoopReflect, canonicalReflect, vflipAngle, rotPi, Dir.ext_iff, hy]
      constructor <;> intro hc <;> linarith
    · simp [mainLoopReflect, canonicalReflect, vflipAngle, rotPi, Dir.ext_iff, hy]
      all_goals linarith [le_of_not_lt hy]

/-- Witness for c6_angle_variant_agreement: a top-left corner hit with
pre-step direction (3/5, 4/5) gives the same direction under both rules. -/
theorem c6_witness :
    mainLoopReflect ⟨true, false, true, false⟩ ⟨3/5, 4/5⟩ =
      canonicalReflect ⟨true, false, true, false⟩ ⟨3/5, 4/5⟩ :=
  (c6_angle_variant_agreement ⟨3/5, 4/5⟩).1 ⟨true, false, true, false⟩
    (by decide) (by decide)

/-- The part of a CanvasImage (src/index.js, class of lines 664-966)
relevant to hit testing and scaling: centre position, natural image
dimensions and the current scale factor. -/
structure CanvasImage where
  x : ℚ
  y : ℚ
  naturalWidth : ℚ
  naturalHeight : ℚ
  scale : ℚ
deriving DecidableEq, Repr

/-- Hit test of CanvasImage.isPointInside, src/index.js lines 892-907:
the point lies within half the scaled dimensions of the centre. -/
def isPointInside (img : CanvasImage) (px py : ℚ) : Bool :=
  decide (px ≥ img.x - img.naturalWidth * img.scale / 2) &&
  decide (px ≤ img.x + img.naturalWidth * img.scale / 2) &&
  decide (py ≥ img.y - img.naturalHeight * img.scale / 2) &&
  decide (py ≤ img.y + img.naturalHeight * img.scale / 2)

/-- Pre-clamp scale adjustment of CanvasImage.adjustScale, src/index.js
line 959: subtract a tenth when the wheel delta is positive, otherwise
add a tenth. -/
def adjustScaleRaw (scale delta : ℚ) : ℚ :=
  scale + (if delta > 0 then -(1/10) else 1/10)

/-- CanvasImage.adjustScale, src/index.js lines 956-965: when the
pointer is inside the image, adjust the scale by a tenth against the
sign of the wheel delta and clamp it into the closed interval from 1/5
to 3, reporting true; otherwise leave the image unchanged and report
false. -/
def adjustScale (img : CanvasImage) (delta px py : ℚ) : CanvasImage × Bool :=
  if isPointInside img px py then
    ({ img with scale := max (1/5) (min 3 (adjustScaleRaw img.scale delta)) }, true)
  else (img, false)

/-- C10: a scale in the closed interval from 1/5 to 3 stays in that
interval after any call of adjustScale with any delta and pointer
position, and on a hit the pre-clamp adjustment is exactly one tenth
against the sign of a nonzero delta. -/
theorem c10_adjust_scale_clamped (img : CanvasImage) (delta px py : ℚ)
    (h1 : 1/5 ≤ img.scale) (h2 : img.scale ≤ 3) :
    (1/5 ≤ (adjustScale img delta px py).1.scale ∧
     (adjustScale img delta px py).1.scale ≤ 3) ∧
    (0 < delta → adjustScaleRaw img.scale delta = img.scale - 1/10) ∧
    (delta < 0 → adjustScaleRaw img.scale delta = img.scale + 1/10) := by
  refine ⟨?_, ?_, ?_⟩
  · unfold adjustScale
    split_ifs with hin
    · constructor
      · exact le_max_left _ _
      · apply max_le
        · norm_num
        · exact min_le_left _ _
    · exact ⟨h1, h2⟩
  · intro hd
    rw [adjustScaleRaw, if_pos hd]
    ring
  · intro hd
    rw [adjustScaleRaw, if_neg (not_lt_of_lt hd)]

/-- Witness for c10_adjust_scale_clamped: a wheel-up hit at the centre of
a unit-scale image keeps the scale in range and lowers it by a tenth. -/
theorem c10_witness :
    ((1/5 : ℚ) ≤ (adjustScale ⟨0, 0, 10, 10, 1⟩ 5 0 0).1.scale ∧
     (adjustScale ⟨0, 0, 10, 10, 1⟩ 5 0 0).1.scale ≤ 3) ∧
    ((0 : ℚ) < 5 → adjustScaleRaw 1 5 = 1 - 1/10) ∧
    ((5 : ℚ) < 0 → adjustScaleRaw 1 5 = 1 + 1/10) :=
  c10_adjust_scale_clamped ⟨0, 0, 10, 10, 1⟩ 5 0 0 (by norm_num) (by norm_num)
